import Mathlib

/-!
Shallow embedding of `src/backend/services/comparator.py` (`compare_queries`),
the core comparison engine of the SQL query comparison tool.

The Python function executes two queries into pandas DataFrames and then:
1. builds `mapping_dict` from the user mappings (a Python dict, so a later
   pair with the same `left` key overwrites an earlier one),
2. renames the columns of the second frame with `df2.rename(columns=mapping_dict)`
   (a column named `m.left` becomes `m.right`; names not present are ignored),
3. computes `common_columns` (columns of `df1` also present in the renamed `df2`,
   in `df1` declaration order),
4. picks `join_keys = primary_keys if primary_keys else common_columns[:1]`,
5. performs `pd.merge(df1, df2_renamed, on=join_keys, how='outer',
   suffixes=('_query1','_query2'), indicator=True)`,
6. filters the merged frame by the `_merge` indicator into matches /
   only_in_query1 / only_in_query2,
7. for each `both` row compares `str(row[col+'_query1']) != str(row[col+'_query2'])`
   over the non-key common columns, collecting mismatch records,
8. returns summary counts over the full categories and previews truncated with
   `.head(100)` / `[:100]`.

pandas facts reflected by the embedding (each used where noted):
- `pd.merge` raises `KeyError` during `_MergeOperation.__init__` when a join key
  is missing from either frame, and fails as well when the key list is empty;
  this happens before any row is combined (modelled as `CompareError.keyError`).
- `indicator=True` raises `ValueError` when a frame already has a column named
  `_merge` (modelled as `CompareError.indicatorError`).
- merge key equality is plain value equality and null key values (NaN/None)
  are treated as equal to each other, so null keys join null keys.
- an outer merge produces the full cross product of left and right rows per
  key group, plus the unmatched rows of each side; overlapping non-key columns
  are suffixed `_query1` / `_query2`, columns missing on one side are filled
  with null, and the categorical `_merge` column tags each row.
- Python `str(None)` is the string `None`.

Values are modelled by a closed tagged variant (null, bool, int, text), with
`pyStr` the Python `str()` conversion; rows are association lists from column
name to value, which is exactly the shape of pandas `.to_dict('records')`.
-/

/-- Dynamically typed scalar held in a result cell, as delivered by the
database driver: SQL NULL (pandas None/NaN), booleans, integers and text. -/
inductive Value where
  | null
  | bool (b : Bool)
  | int (n : Int)
  | text (s : String)
  deriving DecidableEq, Repr

/-- Python `str()` on a cell value: `str(None) = "None"`, `str(True) = "True"`,
integers print in decimal, strings are themselves. -/
def pyStr : Value → String
  | Value.null => "None"
  | Value.bool true => "True"
  | Value.bool false => "False"
  | Value.int n => toString n
  | Value.text s => s

/-- One result row in `.to_dict('records')` shape: an association list from
column label to value. -/
abbrev Row := List (String × Value)

/-- Cell access `row[c]` on a record: the first entry labelled `c`
(pandas keeps one entry per label; lookups in the pipeline are only made on
labels that are present). -/
def rowGet (row : Row) (c : String) : Value :=
  match row.find? (fun p => p.1 == c) with
  | some p => p.2
  | none => Value.null

/-- A materialized query result: ordered column labels plus rows. -/
structure DataFrame where
  cols : List String
  rows : List Row
  deriving DecidableEq, Repr

/-- Lookup in the Python dict built by
`for m in mappings: mapping_dict[m['left']] = m['right']`:
the last pair with a given left name wins. -/
def mapping_dict (mappings : List (String × String)) (c : String) : Option String :=
  (mappings.reverse.find? (fun m => m.1 == c)).map (fun m => m.2)

/-- New label of a column of the second frame under
`df2.rename(columns=mapping_dict)`: renamed when its name is a key of the
dict, unchanged otherwise. -/
def renameCol (mappings : List (String × String)) (c : String) : String :=
  (mapping_dict mappings c).getD c

/-- The second frame after `df2.rename(columns=mapping_dict)`. -/
def df2_renamed (df2 : DataFrame) (mappings : List (String × String)) : DataFrame :=
  { cols := df2.cols.map (renameCol mappings),
    rows := df2.rows.map (fun row => row.map (fun p => (renameCol mappings p.1, p.2))) }

/-- `common_columns = [col for col in df1.columns if col in df2_renamed.columns]`. -/
def common_columns (df1 df2r : DataFrame) : List String :=
  df1.cols.filter (fun c => df2r.cols.contains c)

/-- `join_keys = primary_keys if primary_keys else common_columns[:1]`. -/
def join_keys (primary_keys common : List String) : List String :=
  if primary_keys.isEmpty then common.take 1 else primary_keys

/-- Join key tuple of a row: the row's values at the key columns in order. -/
def keyTuple (keys : List String) (row : Row) : List Value :=
  keys.map (fun k => rowGet row k)

/-- Rows of the renamed second frame whose key tuple equals that of left row
`l` (pandas merge key equality: plain value equality, nulls equal nulls). -/
def matchesRight (df2r : DataFrame) (keys : List String) (l : Row) : List Row :=
  df2r.rows.filter (fun r => decide (keyTuple keys r = keyTuple keys l))

/-- Rows of the first frame whose key tuple equals that of right row `r`. -/
def matchesLeft (df1 : DataFrame) (keys : List String) (r : Row) : List Row :=
  df1.rows.filter (fun l => decide (keyTuple keys r = keyTuple keys l))

/-- Matched pairs of the outer merge: the full cross product of left and
right rows agreeing on the key tuple, in left-major order. -/
def bothPairs (df1 df2r : DataFrame) (keys : List String) : List (Row × Row) :=
  df1.rows.flatMap (fun l => (matchesRight df2r keys l).map (fun r => (l, r)))

/-- Left rows with no key match on the right (the `left_only` source rows). -/
def leftOnlySrc (df1 df2r : DataFrame) (keys : List String) : List Row :=
  df1.rows.filter (fun l => (matchesRight df2r keys l).isEmpty)

/-- Right rows with no key match on the left (the `right_only` source rows). -/
def rightOnlySrc (df1 df2r : DataFrame) (keys : List String) : List Row :=
  df2r.rows.filter (fun r => (matchesLeft df1 keys r).isEmpty)

/-- Output record of the merge for a matched pair: key columns keep their
label (value from the left row), overlapping non-key columns of the left
frame are suffixed `_query1`, right-frame non-key columns are suffixed
`_query2` when overlapping, and the indicator column `_merge` is `both`. -/
def mergedBoth (df1cols df2rcols common keys : List String) (l r : Row) : Row :=
  df1cols.map (fun c =>
    if keys.contains c then (c, rowGet l c)
    else if common.contains c then (c ++ "_query1", rowGet l c)
    else (c, rowGet l c))
  ++ ((df2rcols.filter (fun c => !(keys.contains c))).map (fun c =>
    if common.contains c then (c ++ "_query2", rowGet r c) else (c, rowGet r c))
  ++ [("_merge", Value.text "both")])

/-- Merge output record for an unmatched left row: right-frame columns are
null-filled and the indicator is `left_only`. -/
def mergedLeft (df1cols df2rcols common keys : List String) (l : Row) : Row :=
  df1cols.map (fun c =>
    if keys.contains c then (c, rowGet l c)
    else if common.contains c then (c ++ "_query1", rowGet l c)
    else (c, rowGet l c))
  ++ ((df2rcols.filter (fun c => !(keys.contains c))).map (fun c =>
    if common.contains c then (c ++ "_query2", Value.null) else (c, Value.null))
  ++ [("_merge", Value.text "left_only")])

/-- Merge output record for an unmatched right row: key values come from the
right row, other left-frame columns are null-filled, indicator `right_only`. -/
def mergedRight (df1cols df2rcols common keys : List String) (r : Row) : Row :=
  df1cols.map (fun c =>
    if keys.contains c then (c, rowGet r c)
    else if common.contains c then (c ++ "_query1", Value.null)
    else (c, Value.null))
  ++ ((df2rcols.filter (fun c => !(keys.contains c))).map (fun c =>
    if common.contains c then (c ++ "_query2", rowGet r c) else (c, rowGet r c))
  ++ [("_merge", Value.text "right_only")])

/-- The full outer-merge result of
`pd.merge(df1, df2_renamed, on=join_keys, how='outer', suffixes=('_query1','_query2'), indicator=True)`:
matched cross-product rows, then the unmatched rows of each side. -/
def mergedTable (df1 df2r : DataFrame) (common keys : List String) : List Row :=
  (bothPairs df1 df2r keys).map (fun p => mergedBoth df1.cols df2r.cols common keys p.1 p.2)
  ++ ((leftOnlySrc df1 df2r keys).map (mergedLeft df1.cols df2r.cols common keys)
  ++ (rightOnlySrc df1 df2r keys).map (mergedRight df1.cols df2r.cols common keys))

/-- Category selection `merged[merged['_merge'] == tag]`. -/
def filterMerge (tag : String) (rows : List Row) : List Row :=
  rows.filter (fun row => decide (rowGet row "_merge" = Value.text tag))

/-- Inner loop of the diff engine on one merged `both` row: for every common
non-key column, read the suffixed cells and record the column when the Python
string forms differ. -/
def rowDifferences (common keys : List String) (row : Row) : List (String × Value × Value) :=
  (common.filter (fun c => !(keys.contains c))).filterMap (fun c =>
    let val1 := rowGet row (c ++ "_query1")
    let val2 := rowGet row (c ++ "_query2")
    if pyStr val1 ≠ pyStr val2 then some (c, val1, val2) else none)

/-- Key dict `{k: row[k] for k in join_keys}` of a merged row. -/
def mkKey (keys : List String) (row : Row) : List (String × Value) :=
  keys.map (fun k => (k, rowGet row k))

/-- One entry of the mismatch list: the key values and the differing columns
with their two original (typed, unstringified) values. -/
structure MismatchRecord where
  key : List (String × Value)
  differences : List (String × Value × Value)
  deriving DecidableEq, Repr

/-- The mismatch list built from the merged `both` rows: rows with at least
one recorded difference, each carrying its key dict and its differences. -/
def mismatchesOf (common keys : List String) (matchedRows : List Row) : List MismatchRecord :=
  matchedRows.filterMap (fun row =>
    let d := rowDifferences common keys row
    if d.isEmpty then none else some { key := mkKey keys row, differences := d })

/-- The `summary` block of the returned report. Wall-clock `execution_time`
is a real-time measurement and is not part of the embedding. -/
structure Summary where
  total_rows_query1 : Nat
  total_rows_query2 : Nat
  «matches» : Nat
  only_in_query1 : Nat
  only_in_query2 : Nat
  mismatches : Nat
  deriving DecidableEq, Repr

/-- The dictionary returned by `compare_queries`: summary counts over the
full categories, previews truncated to 100 records, the mismatch list
truncated to 100, and the column metadata. -/
structure ComparisonReport where
  summary : Summary
  «matches» : List Row
  only_in_query1 : List Row
  only_in_query2 : List Row
  mismatches : List MismatchRecord
  columns_query1 : List String
  columns_query2 : List String
  columns_mapped : List String
  deriving DecidableEq, Repr

/-- Terminal failures of the pipeline: `keyError` is the pandas `KeyError`
raised when a join key is absent from either frame (or the key list is
empty), `indicatorError` the pandas `ValueError` raised by `indicator=True`
when a frame already has a `_merge` column. The route layer turns either
into an error response; no report is produced. -/
inductive CompareError where
  | keyError
  | indicatorError
  deriving DecidableEq, Repr

/-- Report assembly for the successful path of `compare_queries`. -/
def buildReport (df1 df2 : DataFrame) (mappings : List (String × String))
    (primary_keys : List String) : ComparisonReport :=
  let df2r := df2_renamed df2 mappings
  let common := common_columns df1 df2r
  let keys := join_keys primary_keys common
  let merged := mergedTable df1 df2r common keys
  let matchesRows := filterMerge "both" merged
  let only1 := filterMerge "left_only" merged
  let only2 := filterMerge "right_only" merged
  let mms := mismatchesOf common keys matchesRows
  { summary :=
      { total_rows_query1 := df1.rows.length,
        total_rows_query2 := df2.rows.length,
        «matches» := matchesRows.length,
        only_in_query1 := only1.length,
        only_in_query2 := only2.length,
        mismatches := mms.length },
    «matches» := matchesRows.take 100,
    only_in_query1 := only1.take 100,
    only_in_query2 := only2.take 100,
    mismatches := mms.take 100,
    columns_query1 := df1.cols,
    columns_query2 := df2.cols,
    columns_mapped := common }

/-- The comparison pipeline of `compare_queries` on two materialized results:
rename the second frame per the mapping dict, compute the common columns and
join keys, outer-merge with indicator and suffixes, split by provenance,
diff the matched rows and assemble the bounded report. Fails like pandas
when a join key is missing from either frame (or no key can be chosen), or
when a frame already holds a `_merge` column. -/
def compare_queries (df1 df2 : DataFrame) (mappings : List (String × String))
    (primary_keys : List String) : Except CompareError ComparisonReport :=
  let df2r := df2_renamed df2 mappings
  let common := common_columns df1 df2r
  let keys := join_keys primary_keys common
  if keys = [] ∨ ∃ k ∈ keys, k ∉ df1.cols ∨ k ∉ df2r.cols then
    Except.error CompareError.keyError
  else if "_merge" ∈ df1.cols ∨ "_merge" ∈ df2r.cols then
    Except.error CompareError.indicatorError
  else
    Except.ok (buildReport df1 df2 mappings primary_keys)

/-- Specification-level diff of a matched pair, computed directly from the
two source rows: the common non-key columns whose values have different
Python string forms, with their original values. -/
def pairDifferences (common keys : List String) (l r : Row) : List (String × Value × Value) :=
  (common.filter (fun c => !(keys.contains c))).filterMap (fun c =>
    if pyStr (rowGet l c) ≠ pyStr (rowGet r c) then some (c, rowGet l c, rowGet r c) else none)

/-! Helper lemmas: list membership of `contains`, string append facts, and
`rowGet` over labelled segments. -/

lemma contains_iff (xs : List String) (c : String) : xs.contains c = true ↔ c ∈ xs := by
  simp [List.contains, List.elem_iff]

lemma strAppendCancel {a b q : String} (h : a ++ q = b ++ q) : a = b := by
  have hd : a.data ++ q.data = b.data ++ q.data := by
    simpa [String.data_append] using congrArg String.data h
  exact String.ext ((List.append_inj' hd rfl).1)

lemma strAppendNeShort {a q m : String} (h : m.length < q.length) : a ++ q ≠ m := by
  intro he
  have : a.length + q.length = m.length := by
    simpa [String.length_append] using congrArg String.length he
  omega

lemma strAppendSuffixNe {a b q1 q2 : String} (hlen : q1.data.length = q2.data.length)
    (hne : q1 ≠ q2) : a ++ q1 ≠ b ++ q2 := by
  intro he
  have hd : a.data ++ q1.data = b.data ++ q2.data := by
    simpa [String.data_append] using congrArg String.data he
  exact hne (String.ext (List.append_inj' hd hlen).2)

lemma rowGet_cons_ne {p : String × Value} {xs : List (String × Value)} {c : String}
    (h : p.1 ≠ c) : rowGet (p :: xs) c = rowGet xs c := by
  simp [rowGet, List.find?_cons, beq_eq_false_iff_ne.mpr h]

lemma rowGet_append_right {xs ys : List (String × Value)} {c : String}
    (h : ∀ p ∈ xs, p.1 ≠ c) : rowGet (xs ++ ys) c = rowGet ys c := by
  induction xs with
  | nil => simp
  | cons p t ih =>
      have hp : p.1 ≠ c := h p (List.mem_cons_self p t)
      have ht : ∀ q ∈ t, q.1 ≠ c := fun q hq => h q (List.mem_cons_of_mem p hq)
      simpa [rowGet_cons_ne hp] using ih ht

lemma rowGet_map_append {α : Type} {xs : List α} {f : α → String × Value}
    {ys : List (String × Value)} {c : String} {v : Value}
    (hex : ∃ d ∈ xs, f d = (c, v))
    (huni : ∀ d ∈ xs, (f d).1 = c → f d = (c, v)) :
    rowGet (xs.map f ++ ys) c = v := by
  induction xs with
  | nil => simp at hex
  | cons a t ih =>
      by_cases ha : (f a).1 = c
      · have hfa : f a = (c, v) := huni a (List.mem_cons_self a t) ha
        simp [rowGet, List.find?_cons, hfa]
      · have hstep : rowGet ((a :: t).map f ++ ys) c = rowGet (t.map f ++ ys) c := by
          simpa using rowGet_cons_ne (p := f a) ha
        rw [hstep]
        rcases hex with ⟨d, hd, hfd⟩
        rcases List.mem_cons.mp hd with rfl | hdt
        · exact absurd (by rw [hfd]) ha
        · exact ih ⟨d, hdt, hfd⟩ (fun q hq => huni q (List.mem_cons_of_mem a hq))

lemma rowGet_single (c : String) (v : Value) : rowGet [(c, v)] c = v := by
  simp [rowGet, List.find?_cons]

lemma not_mem_of_contains_false {xs : List String} {c : String}
    (h : xs.contains c = false) : c ∉ xs := by
  intro hmem
  rw [(contains_iff xs c).mpr hmem] at h
  exact Bool.noConfusion h

/-! Generic shape shared by the three merge output records: only the cell
values differ between the `both` / `left_only` / `right_only` variants, the
labelling is identical. All lookup facts are proved once on this shape. -/

/-- Common shape of a merge output record: left-frame segment, right-frame
segment, indicator entry. `a`, `b`, `c` give the values of the left-frame
key / suffixed / plain columns, `e`, `f` those of the right-frame suffixed /
plain columns, `t` the indicator tag. -/
def mergeRowShape (df1cols df2rcols common keys : List String)
    (a b c : String → Value) (e f : String → Value) (t : String) : Row :=
  df1cols.map (fun x =>
    if keys.contains x then (x, a x)
    else if common.contains x then (x ++ "_query1", b x)
    else (x, c x))
  ++ ((df2rcols.filter (fun x => !(keys.contains x))).map (fun x =>
    if common.contains x then (x ++ "_query2", e x) else (x, f x))
  ++ [("_merge", Value.text t)])

lemma mergedBoth_shape (df1cols df2rcols common keys : List String) (l r : Row) :
    mergedBoth df1cols df2rcols common keys l r =
      mergeRowShape df1cols df2rcols common keys
        (fun x => rowGet l x) (fun x => rowGet l x) (fun x => rowGet l x)
        (fun x => rowGet r x) (fun x => rowGet r x) "both" := rfl

lemma mergedLeft_shape (df1cols df2rcols common keys : List String) (l : Row) :
    mergedLeft df1cols df2rcols common keys l =
      mergeRowShape df1cols df2rcols common keys
        (fun x => rowGet l x) (fun x => rowGet l x) (fun x => rowGet l x)
        (fun _ => Value.null) (fun _ => Value.null) "left_only" := rfl

lemma mergedRight_shape (df1cols df2rcols common keys : List String) (r : Row) :
    mergedRight df1cols df2rcols common keys r =
      mergeRowShape df1cols df2rcols common keys
        (fun x => rowGet r x) (fun _ => Value.null) (fun _ => Value.null)
        (fun x => rowGet r x) (fun x => rowGet r x) "right_only" := rfl

/-- The indicator lookup on a merge record returns its tag, as long as
neither frame owns a column literally named `_merge` (pandas refuses to run
otherwise). -/
lemma mergeRowShape_tag (df1cols df2rcols common keys : List String)
    (a b c : String → Value) (e f : String → Value) (t : String)
    (hm1 : "_merge" ∉ df1cols) (hm2 : "_merge" ∉ df2rcols) :
    rowGet (mergeRowShape df1cols df2rcols common keys a b c e f t) "_merge" =
      Value.text t := by
  unfold mergeRowShape
  rw [rowGet_append_right, rowGet_append_right]
  · exact rowGet_single _ _
  · intro p hp
    rcases List.mem_map.mp hp with ⟨x, hx, hpx⟩
    have hx2 : x ∈ df2rcols := (List.mem_filter.mp hx).1
    subst hpx
    by_cases hc : common.contains x <;>
      simp only [hc, if_true, if_false] <;> intro hlab
    · exact strAppendNeShort (q := "_query2") (by decide) hlab
    · exact hm2 (hlab ▸ hx2)
  · intro p hp
    rcases List.mem_map.mp hp with ⟨x, hx, hpx⟩
    subst hpx
    by_cases hk : keys.contains x
    · simp only [hk, if_true]
      intro hlab; exact hm1 (hlab ▸ hx)
    · by_cases hc : common.contains x <;>
        simp only [hk, hc, if_true, if_false] <;> intro hlab
      · exact strAppendNeShort (q := "_query1") (by decide) hlab
      · exact hm1 (hlab ▸ hx)

/-- Key columns keep their label in the merge output, so looking a key up in
a merge record returns the key-segment value. -/
lemma mergeRowShape_key (df1cols df2rcols common keys : List String)
    (a b c : String → Value) (e f : String → Value) (t : String) (k : String)
    (hk : keys.contains k = true) (hk1 : k ∈ df1cols)
    (hcoll : ∀ x ∈ df1cols, ∀ d ∈ common, x ≠ d ++ "_query1") :
    rowGet (mergeRowShape df1cols df2rcols common keys a b c e f t) k = a k := by
  unfold mergeRowShape
  apply rowGet_map_append
  · exact ⟨k, hk1, by simp only [hk, if_true]⟩
  · intro x hx hlab
    by_cases hkx : keys.contains x
    · simp only [hkx, if_true] at hlab ⊢
      subst hlab; rfl
    · by_cases hcx : common.contains x
      · simp only [hkx, hcx, Bool.false_eq_true, if_false, if_true] at hlab
        exact absurd hlab.symm (hcoll k hk1 x ((contains_iff _ _).mp hcx))
      · simp only [hkx, hcx, Bool.false_eq_true, if_false] at hlab
        rw [← hlab] at hk
        exact absurd hk hkx

/-- Looking up `d ++ "_query1"` in a merge record returns the left-frame
value of common non-key column `d`. -/
lemma mergeRowShape_q1 (df1cols df2rcols common keys : List String)
    (a b c : String → Value) (e f : String → Value) (t : String) (d : String)
    (hd : common.contains d = true) (hdk : keys.contains d = false) (hd1 : d ∈ df1cols)
    (hA : ∀ x ∈ df1cols, x ≠ d ++ "_query1") :
    rowGet (mergeRowShape df1cols df2rcols common keys a b c e f t) (d ++ "_query1") =
      b d := by
  unfold mergeRowShape
  apply rowGet_map_append
  · exact ⟨d, hd1, by simp only [hdk, Bool.false_eq_true, if_false, hd, if_true]⟩
  · intro x hx hlab
    by_cases hkx : keys.contains x
    · simp only [hkx, if_true] at hlab
      exact absurd hlab (hA x hx)
    · by_cases hcx : common.contains x
      · simp only [hkx, hcx, Bool.false_eq_true, if_false, if_true] at hlab ⊢
        have hxd : x = d := strAppendCancel hlab
        subst hxd; rfl
      · simp only [hkx, hcx, Bool.false_eq_true, if_false] at hlab
        exact absurd hlab (hA x hx)

/-- Looking up `d ++ "_query2"` in a merge record returns the right-frame
value of common non-key column `d`. -/
lemma mergeRowShape_q2 (df1cols df2rcols common keys : List String)
    (a b c : String → Value) (e f : String → Value) (t : String) (d : String)
    (hd : common.contains d = true) (hdk : keys.contains d = false) (hd2 : d ∈ df2rcols)
    (hA2 : ∀ x ∈ df1cols, x ≠ d ++ "_query2") (hB2 : ∀ x ∈ df2rcols, x ≠ d ++ "_query2") :
    rowGet (mergeRowShape df1cols df2rcols common keys a b c e f t) (d ++ "_query2") =
      e d := by
  unfold mergeRowShape
  rw [rowGet_append_right]
  · apply rowGet_map_append
    · refine ⟨d, List.mem_filter.mpr ⟨hd2, by rw [hdk]; rfl⟩, ?_⟩
      simp only [hd, if_true]
    · intro x hx hlab
      have hx2 : x ∈ df2rcols := (List.mem_filter.mp hx).1
      by_cases hcx : common.contains x
      · simp only [hcx, if_true] at hlab ⊢
        have hxd : x = d := strAppendCancel hlab
        subst hxd; rfl
      · simp only [hcx, Bool.false_eq_true, if_false] at hlab
        exact absurd hlab (hB2 x hx2)
  · intro p hp
    rcases List.mem_map.mp hp with ⟨x, hx, hpx⟩
    subst hpx
    by_cases hkx : keys.contains x
    · simp only [hkx, if_true]
      exact hA2 x hx
    · by_cases hcx : common.contains x
      · simp only [hkx, hcx, Bool.false_eq_true, if_false, if_true]
        exact strAppendSuffixNe (by decide) (by decide)
      · simp only [hkx, hcx, Bool.false_eq_true, if_false]
        exact hA2 x hx

/-- A common non-key column label never appears unsuffixed in a merge
record: both of its cells live under the suffixed labels. -/
lemma mergeRowShape_no_plain (df1cols df2rcols common keys : List String)
    (a b c : String → Value) (e f : String → Value) (t : String) (d : String)
    (hd : common.contains d = true) (hdk : keys.contains d = false) (hd1 : d ∈ df1cols)
    (hm1 : "_merge" ∉ df1cols)
    (hC1 : ∀ x ∈ common, d ≠ x ++ "_query1") (hC2 : ∀ x ∈ common, d ≠ x ++ "_query2") :
    ∀ p ∈ mergeRowShape df1cols df2rcols common keys a b c e f t, p.1 ≠ d := by
  intro p hp
  unfold mergeRowShape at hp
  rcases List.mem_append.mp hp with hp1 | hp2
  · rcases List.mem_map.mp hp1 with ⟨x, hx, hpx⟩
    subst hpx
    by_cases hkx : keys.contains x
    · simp only [hkx, if_true]
      intro hxd; subst hxd
      rw [hdk] at hkx; exact Bool.noConfusion hkx
    · by_cases hcx : common.contains x
      · simp only [hkx, hcx, Bool.false_eq_true, if_false, if_true]
        intro hxd
        exact hC1 x ((contains_iff _ _).mp hcx) hxd.symm
      · simp only [hkx, hcx, Bool.false_eq_true, if_false]
        intro hxd; subst hxd; exact hcx hd
  · rcases List.mem_append.mp hp2 with hp3 | hp4
    · rcases List.mem_map.mp hp3 with ⟨x, hx, hpx⟩
      subst hpx
      by_cases hcx : common.contains x
      · simp only [hcx, if_true]
        intro hxd
        exact hC2 x ((contains_iff _ _).mp hcx) hxd.symm
      · simp only [hcx, Bool.false_eq_true, if_false]
        intro hxd; subst hxd; exact hcx hd
    · rcases List.mem_singleton.mp hp4 with rfl
      intro hxd
      have hxd2 : "_merge" = d := hxd
      subst hxd2
      exact hm1 hd1

/-- The left suffixed cell of a common non-key column is present in a merge
record. -/
lemma mergeRowShape_mem_q1 (df1cols df2rcols common keys : List String)
    (a b c : String → Value) (e f : String → Value) (t : String) (d : String)
    (hd : common.contains d = true) (hdk : keys.contains d = false) (hd1 : d ∈ df1cols) :
    (d ++ "_query1", b d) ∈ mergeRowShape df1cols df2rcols common keys a b c e f t := by
  unfold mergeRowShape
  refine List.mem_append.mpr (Or.inl (List.mem_map.mpr ⟨d, hd1, ?_⟩))
  simp only [hdk, Bool.false_eq_true, if_false, hd, if_true]

/-- The right suffixed cell of a common non-key column is present in a merge
record. -/
lemma mergeRowShape_mem_q2 (df1cols df2rcols common keys : List String)
    (a b c : String → Value) (e f : String → Value) (t : String) (d : String)
    (hd : common.contains d = true) (hdk : keys.contains d = false) (hd2 : d ∈ df2rcols) :
    (d ++ "_query2", e d) ∈ mergeRowShape df1cols df2rcols common keys a b c e f t := by
  unfold mergeRowShape
  refine List.mem_append.mpr (Or.inr (List.mem_append.mpr (Or.inl (List.mem_map.mpr
    ⟨d, List.mem_filter.mpr ⟨hd2, by rw [hdk]; rfl⟩, ?_⟩))))
  simp only [hd, if_true]

/-- The indicator cell is present in every merge record. -/
lemma mergeRowShape_mem_tag (df1cols df2rcols common keys : List String)
    (a b c : String → Value) (e f : String → Value) (t : String) :
    ("_merge", Value.text t) ∈ mergeRowShape df1cols df2rcols common keys a b c e f t := by
  unfold mergeRowShape
  exact List.mem_append.mpr (Or.inr (List.mem_append.mpr (Or.inr (List.mem_singleton.mpr rfl))))

/-! Pipeline lemmas: relating the merged table back to the source rows. -/

/-- The two frames are free of pathological names colliding with the merge
suffixes: no column of either frame is literally a common column name with
`_query1` or `_query2` appended. pandas would produce duplicate output
labels on such inputs; every realistic schema satisfies this. -/
def NoSuffixClash (df1 df2r : DataFrame) : Prop :=
  ∀ x ∈ df1.cols ++ df2r.cols, ∀ d ∈ common_columns df1 df2r,
    x ≠ d ++ "_query1" ∧ x ≠ d ++ "_query2"

instance (df1 df2r : DataFrame) : Decidable (NoSuffixClash df1 df2r) := by
  unfold NoSuffixClash; infer_instance

lemma common_sub1 {df1 df2r : DataFrame} {d : String}
    (hd : d ∈ common_columns df1 df2r) : d ∈ df1.cols :=
  (List.mem_filter.mp hd).1

lemma common_sub2 {df1 df2r : DataFrame} {d : String}
    (hd : d ∈ common_columns df1 df2r) : d ∈ df2r.cols :=
  (contains_iff _ _).mp (List.mem_filter.mp hd).2

/-- Success inversion for the pipeline: the join keys were nonempty and
present in both frames, neither frame owned a `_merge` column, and the
returned report is the built one. -/
lemma compare_ok_inv {df1 df2 : DataFrame} {mappings : List (String × String)}
    {pks : List String} {rep : ComparisonReport}
    (hok : compare_queries df1 df2 mappings pks = Except.ok rep) :
    (join_keys pks (common_columns df1 (df2_renamed df2 mappings)) ≠ [] ∧
      ∀ k ∈ join_keys pks (common_columns df1 (df2_renamed df2 mappings)),
        k ∈ df1.cols ∧ k ∈ (df2_renamed df2 mappings).cols) ∧
    ("_merge" ∉ df1.cols ∧ "_merge" ∉ (df2_renamed df2 mappings).cols) ∧
    rep = buildReport df1 df2 mappings pks := by
  unfold compare_queries at hok
  dsimp only at hok
  split at hok
  · exact Except.noConfusion hok
  · split at hok
    · exact Except.noConfusion hok
    · rename_i hc1 hc2
      push_neg at hc1 hc2
      refine ⟨⟨hc1.1, fun k hk => ?_⟩, ⟨hc2.1, hc2.2⟩, (Except.ok.inj hok).symm⟩
      have h := hc1.2 k hk
      push_neg at h
      exact h

/-- The `both` category of the merged table is exactly the matched pairs in
merge order. -/
lemma filterMerge_both {df1 df2r : DataFrame} {common keys : List String}
    (hm1 : "_merge" ∉ df1.cols) (hm2 : "_merge" ∉ df2r.cols) :
    filterMerge "both" (mergedTable df1 df2r common keys) =
      (bothPairs df1 df2r keys).map
        (fun p => mergedBoth df1.cols df2r.cols common keys p.1 p.2) := by
  unfold mergedTable filterMerge
  rw [List.filter_append, List.filter_append]
  rw [List.filter_eq_self.mpr, List.filter_eq_nil_iff.mpr, List.filter_eq_nil_iff.mpr]
  · simp
  · intro row hrow
    rcases List.mem_map.mp hrow with ⟨r, hr, hrw⟩
    subst hrw
    rw [mergedRight_shape, mergeRowShape_tag _ _ _ _ _ _ _ _ _ _ hm1 hm2]
    simp
  · intro row hrow
    rcases List.mem_map.mp hrow with ⟨l, hl, hrw⟩
    subst hrw
    rw [mergedLeft_shape, mergeRowShape_tag _ _ _ _ _ _ _ _ _ _ hm1 hm2]
    simp
  · intro row hrow
    rcases List.mem_map.mp hrow with ⟨p, hp, hrw⟩
    subst hrw
    rw [mergedBoth_shape, mergeRowShape_tag _ _ _ _ _ _ _ _ _ _ hm1 hm2]
    simp

/-- The `left_only` category of the merged table is exactly the unmatched
left rows in order. -/
lemma filterMerge_left {df1 df2r : DataFrame} {common keys : List String}
    (hm1 : "_merge" ∉ df1.cols) (hm2 : "_merge" ∉ df2r.cols) :
    filterMerge "left_only" (mergedTable df1 df2r common keys) =
      (leftOnlySrc df1 df2r keys).map (mergedLeft df1.cols df2r.cols common keys) := by
  unfold mergedTable filterMerge
  rw [List.filter_append, List.filter_append]
  rw [List.filter_eq_nil_iff.mpr, List.filter_eq_self.mpr, List.filter_eq_nil_iff.mpr]
  · simp
  · intro row hrow
    rcases List.mem_map.mp hrow with ⟨r, hr, hrw⟩
    subst hrw
    rw [mergedRight_shape, mergeRowShape_tag _ _ _ _ _ _ _ _ _ _ hm1 hm2]
    simp
  · intro row hrow
    rcases List.mem_map.mp hrow with ⟨l, hl, hrw⟩
    subst hrw
    rw [mergedLeft_shape, mergeRowShape_tag _ _ _ _ _ _ _ _ _ _ hm1 hm2]
    simp
  · intro row hrow
    rcases List.mem_map.mp hrow with ⟨p, hp, hrw⟩
    subst hrw
    rw [mergedBoth_shape, mergeRowShape_tag _ _ _ _ _ _ _ _ _ _ hm1 hm2]
    simp

/-- The `right_only` category of the merged table is exactly the unmatched
right rows in order. -/
lemma filterMerge_right {df1 df2r : DataFrame} {common keys : List String}
    (hm1 : "_merge" ∉ df1.cols) (hm2 : "_merge" ∉ df2r.cols) :
    filterMerge "right_only" (mergedTable df1 df2r common keys) =
      (rightOnlySrc df1 df2r keys).map (mergedRight df1.cols df2r.cols common keys) := by
  unfold mergedTable filterMerge
  rw [List.filter_append, List.filter_append]
  rw [List.filter_eq_nil_iff.mpr, List.filter_eq_nil_iff.mpr, List.filter_eq_self.mpr]
  · simp
  · intro row hrow
    rcases List.mem_map.mp hrow with ⟨r, hr, hrw⟩
    subst hrw
    rw [mergedRight_shape, mergeRowShape_tag _ _ _ _ _ _ _ _ _ _ hm1 hm2]
    simp
  · intro row hrow
    rcases List.mem_map.mp hrow with ⟨l, hl, hrw⟩
    subst hrw
    rw [mergedLeft_shape, mergeRowShape_tag _ _ _ _ _ _ _ _ _ _ hm1 hm2]
    simp
  · intro row hrow
    rcases List.mem_map.mp hrow with ⟨p, hp, hrw⟩
    subst hrw
    rw [mergedBoth_shape, mergeRowShape_tag _ _ _ _ _ _ _ _ _ _ hm1 hm2]
    simp

/-- Reading the suffixed cells of a matched merge record recovers exactly
the string-normalized diff of the underlying pair of source rows. -/
lemma rowDifferences_mergedBoth {df1cols df2rcols common keys : List String} {l r : Row}
    (h1 : ∀ d ∈ common, d ∈ df1cols) (h2 : ∀ d ∈ common, d ∈ df2rcols)
    (hcl : ∀ x ∈ df1cols ++ df2rcols, ∀ d ∈ common,
      x ≠ d ++ "_query1" ∧ x ≠ d ++ "_query2") :
    rowDifferences common keys (mergedBoth df1cols df2rcols common keys l r) =
      pairDifferences common keys l r := by
  unfold rowDifferences pairDifferences
  apply List.filterMap_congr
  intro c hc
  have hcc : c ∈ common := (List.mem_filter.mp hc).1
  have hck : keys.contains c = false := by
    have hb := (List.mem_filter.mp hc).2
    cases hkc : keys.contains c
    · rfl
    · rw [hkc] at hb; exact Bool.noConfusion hb
  have e1 : rowGet (mergedBoth df1cols df2rcols common keys l r) (c ++ "_query1") =
      rowGet l c := by
    rw [mergedBoth_shape]
    exact mergeRowShape_q1 _ _ _ _ _ _ _ _ _ _ c ((contains_iff _ _).mpr hcc) hck
      (h1 c hcc)
      (fun x hx => (hcl x (List.mem_append.mpr (Or.inl hx)) c hcc).1)
  have e2 : rowGet (mergedBoth df1cols df2rcols common keys l r) (c ++ "_query2") =
      rowGet r c := by
    rw [mergedBoth_shape]
    exact mergeRowShape_q2 _ _ _ _ _ _ _ _ _ _ c ((contains_iff _ _).mpr hcc) hck
      (h2 c hcc)
      (fun x hx => (hcl x (List.mem_append.mpr (Or.inl hx)) c hcc).2)
      (fun x hx => (hcl x (List.mem_append.mpr (Or.inr hx)) c hcc).2)
  simp only [e1, e2]

/-- The key dict of a matched merge record holds the left row's key values. -/
lemma mkKey_mergedBoth {df1cols df2rcols common keys : List String} {l r : Row}
    (hk1 : ∀ k ∈ keys, k ∈ df1cols)
    (hclA : ∀ x ∈ df1cols, ∀ d ∈ common, x ≠ d ++ "_query1") :
    mkKey keys (mergedBoth df1cols df2rcols common keys l r) =
      keys.map (fun k => (k, rowGet l k)) := by
  unfold mkKey
  apply List.map_congr_left
  intro k hk
  have e : rowGet (mergedBoth df1cols df2rcols common keys l r) k = rowGet l k := by
    rw [mergedBoth_shape]
    exact mergeRowShape_key _ _ _ _ _ _ _ _ _ _ k ((contains_iff _ _).mpr hk)
      (hk1 k hk) hclA
  rw [e]

/-- The full mismatch list of the pipeline, characterized over the matched
source pairs: one record per matched pair with a nonempty diff, built from
the pair's own values. -/
lemma mismatchesOf_both {df1 df2r : DataFrame} {common keys : List String}
    (hm1 : "_merge" ∉ df1.cols) (hm2 : "_merge" ∉ df2r.cols)
    (h1 : ∀ d ∈ common, d ∈ df1.cols) (h2 : ∀ d ∈ common, d ∈ df2r.cols)
    (hk1 : ∀ k ∈ keys, k ∈ df1.cols)
    (hcl : ∀ x ∈ df1.cols ++ df2r.cols, ∀ d ∈ common,
      x ≠ d ++ "_query1" ∧ x ≠ d ++ "_query2") :
    mismatchesOf common keys (filterMerge "both" (mergedTable df1 df2r common keys)) =
      (bothPairs df1 df2r keys).filterMap (fun p =>
        let d := pairDifferences common keys p.1 p.2
        if d.isEmpty then none
        else some { key := keys.map (fun k => (k, rowGet p.1 k)), differences := d }) := by
  rw [filterMerge_both hm1 hm2]
  unfold mismatchesOf
  rw [List.filterMap_map]
  apply List.filterMap_congr
  intro p hp
  simp only [Function.comp_apply]
  rw [rowDifferences_mergedBoth h1 h2 hcl,
    mkKey_mergedBoth hk1 (fun x hx => fun d hd => (hcl x (List.mem_append.mpr (Or.inl hx)) d hd).1)]

/-! Counting lemmas for the partition property of the outer join. -/

lemma sum_map_indicator {α : Type} (R : List α) (p : α → Bool) :
    (R.map (fun r => if p r then 1 else 0)).sum = (R.filter p).length := by
  induction R with
  | nil => rfl
  | cons r R ih =>
      by_cases hp : p r <;> simp [List.filter_cons, hp, ih] <;> omega

/-- Double counting of matching pairs: summing per-left-row match counts
equals summing per-right-row match counts. -/
lemma sum_count_swap {α β : Type} (L : List α) (R : List β) (p : α → β → Bool) :
    (L.map (fun l => (R.filter (p l)).length)).sum =
      (R.map (fun r => (L.filter (fun l => p l r)).length)).sum := by
  induction L with
  | nil => simp
  | cons l L ih =>
      have hcons : ∀ r : β, ((l :: L).filter (fun x => p x r)).length =
          (if p l r then 1 else 0) + ((L.filter (fun x => p x r)).length) := by
        intro r
        by_cases hp : p l r <;> simp [List.filter_cons, hp] <;> omega
      calc ((l :: L).map (fun x => (R.filter (p x)).length)).sum
          = (R.filter (p l)).length + (L.map (fun x => (R.filter (p x)).length)).sum := by
            simp
        _ = (R.map (fun r => if p l r then 1 else 0)).sum
              + (R.map (fun r => (L.filter (fun x => p x r)).length)).sum := by
            rw [sum_map_indicator, ih]
        _ = (R.map (fun r => (if p l r then 1 else 0)
              + (L.filter (fun x => p x r)).length)).sum := by
            rw [List.sum_map_add]
        _ = (R.map (fun r => ((l :: L).filter (fun x => p x r)).length)).sum := by
            apply congrArg
            apply List.map_congr_left
            intro r _
            exact (hcons r).symm

/-- Membership in the matched pairs: exactly the pairs of source rows with
equal key tuples. -/
lemma mem_bothPairs {df1 df2r : DataFrame} {keys : List String} {l r : Row} :
    (l, r) ∈ bothPairs df1 df2r keys ↔
      l ∈ df1.rows ∧ r ∈ df2r.rows ∧ keyTuple keys r = keyTuple keys l := by
  unfold bothPairs matchesRight
  rw [List.mem_flatMap]
  constructor
  · rintro ⟨a, ha, hmem⟩
    rcases List.mem_map.mp hmem with ⟨b, hb, heq⟩
    have hal : a = l := congrArg Prod.fst heq
    have hbr : b = r := congrArg Prod.snd heq
    subst hal; subst hbr
    rcases List.mem_filter.mp hb with ⟨hb1, hb2⟩
    exact ⟨ha, hb1, of_decide_eq_true hb2⟩
  · rintro ⟨hl, hr, hk⟩
    exact ⟨l, hl, List.mem_map.mpr ⟨r, List.mem_filter.mpr ⟨hr, decide_eq_true hk⟩, rfl⟩⟩

/-- Membership in the unmatched left rows. -/
lemma mem_leftOnlySrc {df1 df2r : DataFrame} {keys : List String} {l : Row} :
    l ∈ leftOnlySrc df1 df2r keys ↔
      l ∈ df1.rows ∧ matchesRight df2r keys l = [] := by
  unfold leftOnlySrc
  rw [List.mem_filter, List.isEmpty_iff]

/-- Membership in the unmatched right rows. -/
lemma mem_rightOnlySrc {df1 df2r : DataFrame} {keys : List String} {r : Row} :
    r ∈ rightOnlySrc df1 df2r keys ↔
      r ∈ df2r.rows ∧ matchesLeft df1 keys r = [] := by
  unfold rightOnlySrc
  rw [List.mem_filter, List.isEmpty_iff]

/-- Length of the matched-pair list: the sum over left rows of their match
counts. -/
lemma bothPairs_length_left {df1 df2r : DataFrame} {keys : List String} :
    (bothPairs df1 df2r keys).length =
      (df1.rows.map (fun l => (matchesRight df2r keys l).length)).sum := by
  unfold bothPairs
  rw [List.length_flatMap]
  apply congrArg
  apply List.map_congr_left
  intro l _
  simp [Function.comp]

/-- Length of the matched-pair list, counted from the right side. -/
lemma bothPairs_length_right {df1 df2r : DataFrame} {keys : List String} :
    (bothPairs df1 df2r keys).length =
      (df2r.rows.map (fun r => (matchesLeft df1 keys r).length)).sum := by
  rw [bothPairs_length_left]
  unfold matchesRight matchesLeft
  exact sum_count_swap df1.rows df2r.rows
    (fun l r => decide (keyTuple keys r = keyTuple keys l))

/-! Concrete inputs used by the claim theorems. -/

/-- Left result of the spec's example scenario. -/
def exDf1 : DataFrame :=
  { cols := ["id", "name"],
    rows := [[("id", Value.int 1), ("name", Value.text "A")],
             [("id", Value.int 2), ("name", Value.text "B")]] }

/-- Right result of the spec's example scenario. -/
def exDf2 : DataFrame :=
  { cols := ["id", "name"],
    rows := [[("id", Value.int 1), ("name", Value.text "A")],
             [("id", Value.int 2), ("name", Value.text "C")],
             [("id", Value.int 3), ("name", Value.text "D")]] }

/-- C1: the claim asserts `summary.matches = 1` for the example scenario,
but the code counts every `_merge == 'both'` row as a match regardless of
value differences: the mismatching row id=2 is also counted, so
`summary.matches = 2`. -/
theorem C1_counterexample :
    ((compare_queries exDf1 exDf2 [] ["id"]).toOption.map
      (fun r => r.summary.«matches»)) = some 2 ∧
    ((compare_queries exDf1 exDf2 [] ["id"]).toOption.map
      (fun r => r.summary.«matches»)) ≠ some 1 := by
  constructor
  · rfl
  · decide

/-- C1 (amended): on the example inputs the code returns
total_rows_query1 = 2, total_rows_query2 = 3, matches = 2 (both rows present
on both sides count as matches, including the mismatching one),
only_in_query1 = 0, only_in_query2 = 1, mismatches = 1; exactly one
mismatch record with key id=2 and differences name: (B, C); and one
right-only preview record carrying id=3 with the name columns suffixed
(name_query1 = null, name_query2 = D) and the `_merge` tag. -/
theorem C1_amended :
    compare_queries exDf1 exDf2 [] ["id"] = Except.ok
      { summary :=
          { total_rows_query1 := 2, total_rows_query2 := 3, «matches» := 2,
            only_in_query1 := 0, only_in_query2 := 1, mismatches := 1 },
        «matches» :=
          [[("id", Value.int 1), ("name_query1", Value.text "A"),
            ("name_query2", Value.text "A"), ("_merge", Value.text "both")],
           [("id", Value.int 2), ("name_query1", Value.text "B"),
            ("name_query2", Value.text "C"), ("_merge", Value.text "both")]],
        only_in_query1 := [],
        only_in_query2 :=
          [[("id", Value.int 3), ("name_query1", Value.null),
            ("name_query2", Value.text "D"), ("_merge", Value.text "right_only")]],
        mismatches :=
          [{ key := [("id", Value.int 2)],
             differences := [("name", Value.text "B", Value.text "C")] }],
        columns_query1 := ["id", "name"],
        columns_query2 := ["id", "name"],
        columns_mapped := ["id", "name"] } := by
  rfl

/-! Named views of the untruncated categories (the local variables
`matches`, `only_query1`, `only_query2`, `mismatches` of the source before
the preview truncation). -/

/-- Untruncated `both` rows of the merged frame. -/
def matchesFull (df1 df2 : DataFrame) (mappings : List (String × String))
    (pks : List String) : List Row :=
  filterMerge "both" (mergedTable df1 (df2_renamed df2 mappings)
    (common_columns df1 (df2_renamed df2 mappings))
    (join_keys pks (common_columns df1 (df2_renamed df2 mappings))))

/-- Untruncated `left_only` rows of the merged frame. -/
def onlyQuery1Full (df1 df2 : DataFrame) (mappings : List (String × String))
    (pks : List String) : List Row :=
  filterMerge "left_only" (mergedTable df1 (df2_renamed df2 mappings)
    (common_columns df1 (df2_renamed df2 mappings))
    (join_keys pks (common_columns df1 (df2_renamed df2 mappings))))

/-- Untruncated `right_only` rows of the merged frame. -/
def onlyQuery2Full (df1 df2 : DataFrame) (mappings : List (String × String))
    (pks : List String) : List Row :=
  filterMerge "right_only" (mergedTable df1 (df2_renamed df2 mappings)
    (common_columns df1 (df2_renamed df2 mappings))
    (join_keys pks (common_columns df1 (df2_renamed df2 mappings))))

/-- Untruncated mismatch list. -/
def mismatchesFull (df1 df2 : DataFrame) (mappings : List (String × String))
    (pks : List String) : List MismatchRecord :=
  mismatchesOf (common_columns df1 (df2_renamed df2 mappings))
    (join_keys pks (common_columns df1 (df2_renamed df2 mappings)))
    (matchesFull df1 df2 mappings pks)

/-- C4: every preview list of a returned report has at most 100 entries and
is the prefix of the corresponding full category in join-result order,
while every summary count is the length of the full untruncated category. -/
theorem C4_truncation {df1 df2 : DataFrame} {mappings : List (String × String)}
    {pks : List String} {rep : ComparisonReport}
    (hok : compare_queries df1 df2 mappings pks = Except.ok rep) :
    rep.«matches».length ≤ 100 ∧ rep.only_in_query1.length ≤ 100 ∧
    rep.only_in_query2.length ≤ 100 ∧ rep.mismatches.length ≤ 100 ∧
    rep.«matches» = (matchesFull df1 df2 mappings pks).take 100 ∧
    rep.only_in_query1 = (onlyQuery1Full df1 df2 mappings pks).take 100 ∧
    rep.only_in_query2 = (onlyQuery2Full df1 df2 mappings pks).take 100 ∧
    rep.mismatches = (mismatchesFull df1 df2 mappings pks).take 100 ∧
    rep.summary.«matches» = (matchesFull df1 df2 mappings pks).length ∧
    rep.summary.only_in_query1 = (onlyQuery1Full df1 df2 mappings pks).length ∧
    rep.summary.only_in_query2 = (onlyQuery2Full df1 df2 mappings pks).length ∧
    rep.summary.mismatches = (mismatchesFull df1 df2 mappings pks).length ∧
    rep.summary.total_rows_query1 = df1.rows.length ∧
    rep.summary.total_rows_query2 = df2.rows.length := by
  obtain ⟨-, -, hrep⟩ := compare_ok_inv hok
  subst hrep
  exact ⟨List.length_take_le _ _, List.length_take_le _ _, List.length_take_le _ _,
    List.length_take_le _ _, rfl, rfl, rfl, rfl, rfl, rfl, rfl, rfl, rfl, rfl⟩

/-- C4 witness at the example scenario. -/
theorem C4_witness :
    (buildReport exDf1 exDf2 [] ["id"]).«matches».length ≤ 100 ∧
    (buildReport exDf1 exDf2 [] ["id"]).summary.«matches» =
      (matchesFull exDf1 exDf2 [] ["id"]).length :=
  have hok : compare_queries exDf1 exDf2 [] ["id"] =
      Except.ok (buildReport exDf1 exDf2 [] ["id"]) := by rfl
  ⟨(C4_truncation hok).1, (C4_truncation hok).2.2.2.2.2.2.2.2.1⟩

/-- C6: a nonempty user key set referencing a column absent from the left
schema or from the post-mapping right schema makes the comparison fail
before any row is processed, with no report returned (pandas raises
`KeyError` while setting up the merge; the spec names this failure
`SchemaMismatch`). -/
theorem C6_schema_mismatch {df1 df2 : DataFrame} {mappings : List (String × String)}
    {pks : List String} (hne : ¬pks = [])
    (habs : ∃ k ∈ pks, k ∉ df1.cols ∨ k ∉ (df2_renamed df2 mappings).cols) :
    compare_queries df1 df2 mappings pks = Except.error CompareError.keyError := by
  unfold compare_queries
  dsimp only
  have hkeys : join_keys pks (common_columns df1 (df2_renamed df2 mappings)) = pks := by
    unfold join_keys
    rw [if_neg]
    simp [List.isEmpty_iff, hne]
  rw [hkeys]
  rw [if_pos (Or.inr habs)]

/-- C6 witness: key `zzz` exists in neither schema. -/
theorem C6_witness :
    compare_queries exDf1 exDf2 [] ["zzz"] = Except.error CompareError.keyError :=
  C6_schema_mismatch (by decide) ⟨"zzz", by decide, Or.inl (by decide)⟩

/-! Column Mapper facts (C5, C7). -/

/-- A name no mapping pair uses as its left entry is not renamed. -/
lemma renameCol_id {mappings : List (String × String)} {c : String}
    (h : ∀ p ∈ mappings, p.1 ≠ c) : renameCol mappings c = c := by
  unfold renameCol mapping_dict
  rw [List.find?_eq_none.mpr]
  · rfl
  · intro m hm
    have hm2 := h m (List.mem_reverse.mp hm)
    simp [hm2]

/-- A pair whose left name no later pair uses is this left name's winning
dict entry: the column is renamed to its right entry. -/
lemma renameCol_lastOcc {pre post : List (String × String)} {l r : String}
    (hpost : ∀ p ∈ post, p.1 ≠ l) :
    renameCol (pre ++ (l, r) :: post) l = r := by
  unfold renameCol mapping_dict
  have hrev : (pre ++ (l, r) :: post).reverse =
      post.reverse ++ ((l, r) :: pre.reverse) := by
    simp
  rw [hrev, List.find?_append, List.find?_eq_none.mpr, Option.none_or]
  · simp [List.find?_cons]
  · intro p hp
    have hp2 := hpost p (List.mem_reverse.mp hp)
    simp [hp2]

/-- Mapped columns reported by a successful run are the common columns. -/
lemma columns_mapped_ok {df1 df2 : DataFrame} {mappings : List (String × String)}
    {pks : List String} {rep : ComparisonReport}
    (hok : compare_queries df1 df2 mappings pks = Except.ok rep) :
    rep.columns_mapped = common_columns df1 (df2_renamed df2 mappings) := by
  obtain ⟨-, -, hrep⟩ := compare_ok_inv hok
  subst hrep
  rfl

/-- C5 (amended): the mapper renames each second-result-set column whose
name equals a pair's left entry to the pair's right entry (the dict
direction of the code; among pairs sharing a left name the later one wins),
so every such mapped column is compared under its right entry's name when
the first schema also has that name; a column no pair names as its left
entry passes through unchanged and, when present in both schemas under the
same name, is compared under that name. -/
theorem C5_amended {df1 df2 : DataFrame} {mappings : List (String × String)}
    {pks : List String} {rep : ComparisonReport}
    (hok : compare_queries df1 df2 mappings pks = Except.ok rep) :
    (∀ c, c ∈ df1.cols → c ∈ df2.cols → (∀ p ∈ mappings, p.1 ≠ c) →
      c ∈ rep.columns_mapped) ∧
    (∀ (pre post : List (String × String)) (l r : String),
      mappings = pre ++ (l, r) :: post → (∀ p ∈ post, p.1 ≠ l) →
      renameCol mappings l = r ∧
      (l ∈ df2.cols →
        r ∈ (df2_renamed df2 mappings).cols ∧
        (r ∈ df1.cols → r ∈ rep.columns_mapped))) := by
  rw [columns_mapped_ok hok]
  constructor
  · intro c hc1 hc2 hno
    have hcr : c ∈ (df2_renamed df2 mappings).cols := by
      unfold df2_renamed
      exact List.mem_map.mpr ⟨c, hc2, renameCol_id hno⟩
    exact List.mem_filter.mpr ⟨hc1, (contains_iff _ _).mpr hcr⟩
  · intro pre post l r hmap hpost
    have hren : renameCol mappings l = r := by
      rw [hmap]
      exact renameCol_lastOcc hpost
    refine ⟨hren, ?_⟩
    intro hl
    have hcr : r ∈ (df2_renamed df2 mappings).cols := by
      unfold df2_renamed
      exact List.mem_map.mpr ⟨l, hl, hren⟩
    exact ⟨hcr, fun h1 => List.mem_filter.mpr ⟨h1, (contains_iff _ _).mpr hcr⟩⟩

/-- Inputs for the C5 counterexample: the user maps left column `a` to
right column `b`. -/
def c5Df1 : DataFrame :=
  { cols := ["id", "a"], rows := [[("id", Value.int 1), ("a", Value.text "X")]] }

/-- Second frame of the C5 counterexample. -/
def c5Df2 : DataFrame :=
  { cols := ["id", "b"], rows := [[("id", Value.int 1), ("b", Value.text "Y")]] }

/-- C5: the claim predicts that with pair (left=a, right=b) the second
result's column `b` is compared under the first result's name `a`, which
would flag the a/b value difference X vs Y. The code instead renames df2
columns named `a` to `b` (a no-op here), so nothing beyond `id` is shared:
the mapped column list is just [id] and no mismatch is reported. -/
theorem C5_counterexample :
    (df2_renamed c5Df2 [("a", "b")]).cols = ["id", "b"] ∧
    "a" ∉ (df2_renamed c5Df2 [("a", "b")]).cols ∧
    ((compare_queries c5Df1 c5Df2 [("a", "b")] ["id"]).toOption.map
      (fun r => (r.summary.mismatches, r.columns_mapped))) = some (0, ["id"]) := by
  refine ⟨rfl, by decide, rfl⟩

/-- First frame of the C5 witness inputs (mapping in the direction the code
honors: left entry `y` is the df2 name, right entry `x` the df1 name). -/
def c5wDf1 : DataFrame :=
  { cols := ["id", "x"], rows := [[("id", Value.int 1), ("x", Value.text "X")]] }

/-- Second frame of the C5 witness inputs. -/
def c5wDf2 : DataFrame :=
  { cols := ["id", "y"], rows := [[("id", Value.int 1), ("y", Value.text "Y")]] }

/-- C5 witness: pass-through of `id`, and the non-final pair (y, x) of the
two-pair mapping [(y, x), (p, q)] renames `y` to `x`, which is compared
under `x`. -/
theorem C5_witness :
    "id" ∈ (buildReport c5wDf1 c5wDf2 [("y", "x"), ("p", "q")] ["id"]).columns_mapped ∧
    renameCol [("y", "x"), ("p", "q")] "y" = "x" ∧
    "x" ∈ (df2_renamed c5wDf2 [("y", "x"), ("p", "q")]).cols ∧
    "x" ∈ (buildReport c5wDf1 c5wDf2 [("y", "x"), ("p", "q")] ["id"]).columns_mapped :=
  have hok : compare_queries c5wDf1 c5wDf2 [("y", "x"), ("p", "q")] ["id"] =
      Except.ok (buildReport c5wDf1 c5wDf2 [("y", "x"), ("p", "q")] ["id"]) := by rfl
  have h2 := (C5_amended hok).2 [] [("p", "q")] "y" "x" rfl (by decide)
  ⟨(C5_amended hok).1 "id" (by decide) (by decide) (by decide),
   h2.1, (h2.2 (by decide)).1, (h2.2 (by decide)).2 (by decide)⟩

/-- C7 (amended): the pipeline performs no mapping validation. Its only
failure conditions are an empty or absent join key set and a pre-existing
`_merge` column; and when several pairs share a left name, the dict
silently keeps the last pair. -/
theorem C7_amended :
    (∀ (df1 df2 : DataFrame) (mappings : List (String × String)) (pks : List String),
      ((compare_queries df1 df2 mappings pks).toOption = none ↔
        (join_keys pks (common_columns df1 (df2_renamed df2 mappings)) = [] ∨
         (∃ k ∈ join_keys pks (common_columns df1 (df2_renamed df2 mappings)),
           k ∉ df1.cols ∨ k ∉ (df2_renamed df2 mappings).cols) ∨
         "_merge" ∈ df1.cols ∨ "_merge" ∈ (df2_renamed df2 mappings).cols))) ∧
    (∀ (pre mid post : List (String × String)) (l r1 r2 : String),
      (∀ p ∈ post, p.1 ≠ l) →
      renameCol (pre ++ (l, r1) :: mid ++ (l, r2) :: post) l = r2) := by
  constructor
  · intro df1 df2 mappings pks
    unfold compare_queries
    dsimp only
    by_cases h1 : join_keys pks (common_columns df1 (df2_renamed df2 mappings)) = [] ∨
        ∃ k ∈ join_keys pks (common_columns df1 (df2_renamed df2 mappings)),
          k ∉ df1.cols ∨ k ∉ (df2_renamed df2 mappings).cols
    · rw [if_pos h1]
      simp only [Except.toOption, true_iff]
      rcases h1 with h | h
      · exact Or.inl h
      · exact Or.inr (Or.inl h)
    · rw [if_neg h1]
      by_cases h2 : "_merge" ∈ df1.cols ∨ "_merge" ∈ (df2_renamed df2 mappings).cols
      · rw [if_pos h2]
        simp only [Except.toOption, true_iff]
        exact Or.inr (Or.inr h2)
      · rw [if_neg h2]
        simp only [Except.toOption]
        constructor
        · intro hnone; exact Option.noConfusion hnone
        · intro hor
          exfalso
          rcases hor with h | h | h | h
          · exact h1 (Or.inl h)
          · exact h1 (Or.inr h)
          · exact h2 (Or.inl h)
          · exact h2 (Or.inr h)
  · intro pre mid post l r1 r2 hpost
    unfold renameCol mapping_dict
    have hrev : (pre ++ (l, r1) :: mid ++ (l, r2) :: post).reverse =
        post.reverse ++ ((l, r2) :: ((mid.reverse ++ [(l, r1)]) ++ pre.reverse)) := by
      simp
    rw [hrev, List.find?_append, List.find?_eq_none.mpr, Option.none_or]
    · simp [List.find?_cons]
    · intro p hp
      have hp2 := hpost p (List.mem_reverse.mp hp)
      simp [hp2]

/-- First frame of the C7 counterexample. -/
def c7Df1 : DataFrame :=
  { cols := ["id", "q"], rows := [[("id", Value.int 1), ("q", Value.text "X")]] }

/-- Second frame of the C7 counterexample. -/
def c7Df2 : DataFrame :=
  { cols := ["id", "a"], rows := [[("id", Value.int 1), ("a", Value.text "Y")]] }

/-- C7: the mapping [(a,p), (a,q)] has a duplicate left name with
conflicting targets. The claim says compare rejects it with InvalidMapping
before alignment; instead the code succeeds, silently keeps only the last
pair (a renamed to q, never to p), compares under q and reports the X/Y
mismatch. -/
theorem C7_counterexample :
    ((compare_queries c7Df1 c7Df2 [("a", "p"), ("a", "q")] ["id"]).toOption.map
      (fun rep => (rep.summary.mismatches, rep.columns_mapped, rep.mismatches))) =
      some (1, ["id", "q"],
        [{ key := [("id", Value.int 1)],
           differences := [("q", Value.text "X", Value.text "Y")] }]) ∧
    (compare_queries c7Df1 c7Df2 [("a", "p"), ("a", "q")] ["id"]).toOption.isSome = true := by
  exact ⟨rfl, rfl⟩

/-- C7 witness: the last of two conflicting pairs wins. -/
theorem C7_witness : renameCol [("a", "p"), ("a", "q")] "a" = "q" :=
  C7_amended.2 [] [] [] "a" "p" "q" (by simp)

/-- C8 (amended): row alignment matches two rows exactly when their key
tuples are equal as raw values, with null treated as equal to null (pandas
merge semantics); in particular rows whose key values are null on both
sides form a Matched pair and are excluded from the one-sided categories. -/
theorem C8_amended (df1 df2r : DataFrame) (keys : List String) (l r : Row)
    (hl : l ∈ df1.rows) (hr : r ∈ df2r.rows) :
    (((l, r) ∈ bothPairs df1 df2r keys) ↔ keyTuple keys r = keyTuple keys l) ∧
    ((∀ k ∈ keys, rowGet l k = Value.null ∧ rowGet r k = Value.null) →
      (l, r) ∈ bothPairs df1 df2r keys ∧
      l ∉ leftOnlySrc df1 df2r keys ∧ r ∉ rightOnlySrc df1 df2r keys) := by
  constructor
  · constructor
    · intro hmem
      exact (mem_bothPairs.mp hmem).2.2
    · intro hk
      exact mem_bothPairs.mpr ⟨hl, hr, hk⟩
  · intro hnull
    have hk : keyTuple keys r = keyTuple keys l := by
      unfold keyTuple
      apply List.map_congr_left
      intro k hkm
      rw [(hnull k hkm).1, (hnull k hkm).2]
    refine ⟨mem_bothPairs.mpr ⟨hl, hr, hk⟩, ?_, ?_⟩
    · intro hlo
      have hempty := (mem_leftOnlySrc.mp hlo).2
      have : r ∈ matchesRight df2r keys l :=
        List.mem_filter.mpr ⟨hr, decide_eq_true hk⟩
      rw [hempty] at this
      exact List.not_mem_nil r this
    · intro hro
      have hempty := (mem_rightOnlySrc.mp hro).2
      have : l ∈ matchesLeft df1 keys r :=
        List.mem_filter.mpr ⟨hl, decide_eq_true hk⟩
      rw [hempty] at this
      exact List.not_mem_nil l this

/-- First frame of the C8 counterexample: its single row has a null key. -/
def c8Df1 : DataFrame :=
  { cols := ["k", "a"], rows := [[("k", Value.null), ("a", Value.text "1")]] }

/-- Second frame of the C8 counterexample: its single row has a null key. -/
def c8Df2 : DataFrame :=
  { cols := ["k", "b"], rows := [[("k", Value.null), ("b", Value.text "2")]] }

/-- C8: the claim says a left row with a null join-key value never matches
a right row with a null in that key and both land in the one-sided
categories. pandas merge joins null keys to null keys, so the two null-key
rows form a Matched pair: matches = 1 and both one-sided counts are 0, not
matches = 0 with one row on each side. -/
theorem C8_counterexample :
    ((compare_queries c8Df1 c8Df2 [] ["k"]).toOption.map (fun rep =>
      (rep.summary.«matches», rep.summary.only_in_query1,
        rep.summary.only_in_query2))) = some (1, 0, 0) ∧
    ((compare_queries c8Df1 c8Df2 [] ["k"]).toOption.map
      (fun rep => rep.summary.«matches»)) ≠ some 0 := by
  exact ⟨rfl, by decide⟩

/-- C8 witness: the two null-key rows are aligned as a Matched pair. -/
theorem C8_witness :
    ([("k", Value.null), ("a", Value.text "1")],
     [("k", Value.null), ("b", Value.text "2")]) ∈
      bothPairs c8Df1 c8Df2 ["k"] ∧
    [("k", Value.null), ("a", Value.text "1")] ∉ leftOnlySrc c8Df1 c8Df2 ["k"] :=
  have h := (C8_amended c8Df1 c8Df2 ["k"]
    [("k", Value.null), ("a", Value.text "1")]
    [("k", Value.null), ("b", Value.text "2")]
    (by decide) (by decide)).2 (by decide)
  ⟨h.1, h.2.1⟩

/-- First frame of the C9 counterexample: a null in column `v`. -/
def c9Df1 : DataFrame :=
  { cols := ["id", "v"], rows := [[("id", Value.int 1), ("v", Value.null)]] }

/-- Second frame of the C9 counterexample: the literal text `None` in `v`. -/
def c9Df2 : DataFrame :=
  { cols := ["id", "v"], rows := [[("id", Value.int 1), ("v", Value.text "None")]] }

/-- Second frame of the C9 amended theorem: the literal text `null`. -/
def c9Df2n : DataFrame :=
  { cols := ["id", "v"], rows := [[("id", Value.int 1), ("v", Value.text "null")]] }

/-- C9: the claim says a null compared with the text value `None` is a
difference because null converts to an absence marker distinct from
`"None"`. The code compares `str(val1) != str(val2)` and `str(None)` is the
string `None`, so null versus text `None` compares equal and produces no
mismatch entry. -/
theorem C9_counterexample :
    ((compare_queries c9Df1 c9Df2 [] ["id"]).toOption.map (fun rep =>
      (rep.summary.«matches», rep.summary.mismatches))) = some (1, 0) ∧
    ((compare_queries c9Df1 c9Df2 [] ["id"]).toOption.map
      (fun rep => rep.summary.mismatches)) ≠ some 1 := by
  exact ⟨rfl, by decide⟩

/-- C9 (amended): null stringifies to the Python form `None`, so null
versus the text `None` is not a difference, while null versus any other
text (for example `null`) is a difference and yields a mismatch entry
keeping the original typed values. -/
theorem C9_amended :
    pyStr Value.null = "None" ∧
    (∀ s : String, s ≠ "None" → pyStr (Value.text s) ≠ pyStr Value.null) ∧
    ((compare_queries c9Df1 c9Df2 [] ["id"]).toOption.map
      (fun rep => rep.summary.mismatches)) = some 0 ∧
    ((compare_queries c9Df1 c9Df2n [] ["id"]).toOption.map
      (fun rep => rep.mismatches)) =
      some [{ key := [("id", Value.int 1)],
              differences := [("v", Value.null, Value.text "null")] }] := by
  refine ⟨rfl, ?_, rfl, rfl⟩
  intro s hs
  simpa [pyStr] using hs

/-- C9 witness: text `null` and null have different string forms. -/
theorem C9_witness : pyStr (Value.text "null") ≠ pyStr Value.null :=
  C9_amended.2.1 "null" (by decide)

/-- C2 (amended): a record is in the full mismatch list iff it comes from a
Matched pair (present in both sides under the join keys) with at least one
shared non-key column differing under string-normalized comparison; a
Matched pair whose shared non-key columns all compare equal produces no
record. The report's `mismatches` list is the first 100 of these records,
so a differing Matched row beyond the first hundred does not appear in the
report. -/
theorem C2_amended {df1 df2 : DataFrame} {mappings : List (String × String)}
    {pks : List String} {rep : ComparisonReport}
    (hok : compare_queries df1 df2 mappings pks = Except.ok rep)
    (hcl : NoSuffixClash df1 (df2_renamed df2 mappings)) :
    (∀ rec : MismatchRecord,
      rec ∈ mismatchesFull df1 df2 mappings pks ↔
        ∃ l r, l ∈ df1.rows ∧ r ∈ (df2_renamed df2 mappings).rows ∧
          keyTuple (join_keys pks (common_columns df1 (df2_renamed df2 mappings))) r =
            keyTuple (join_keys pks (common_columns df1 (df2_renamed df2 mappings))) l ∧
          pairDifferences (common_columns df1 (df2_renamed df2 mappings))
            (join_keys pks (common_columns df1 (df2_renamed df2 mappings))) l r ≠ [] ∧
          rec = { key := (join_keys pks (common_columns df1 (df2_renamed df2 mappings))).map
                    (fun k => (k, rowGet l k)),
                  differences := pairDifferences (common_columns df1 (df2_renamed df2 mappings))
                    (join_keys pks (common_columns df1 (df2_renamed df2 mappings))) l r }) ∧
    (∀ l r : Row,
      pairDifferences (common_columns df1 (df2_renamed df2 mappings))
          (join_keys pks (common_columns df1 (df2_renamed df2 mappings))) l r ≠ [] ↔
        ∃ c ∈ common_columns df1 (df2_renamed df2 mappings),
          c ∉ join_keys pks (common_columns df1 (df2_renamed df2 mappings)) ∧
          pyStr (rowGet l c) ≠ pyStr (rowGet r c)) ∧
    rep.mismatches = (mismatchesFull df1 df2 mappings pks).take 100 := by
  obtain ⟨⟨hne, hkeys⟩, ⟨hm1, hm2⟩, hrep⟩ := compare_ok_inv hok
  subst hrep
  refine ⟨?_, ?_, rfl⟩
  · intro rec
    unfold mismatchesFull matchesFull
    rw [mismatchesOf_both hm1 hm2 (fun d hd => common_sub1 hd) (fun d hd => common_sub2 hd)
      (fun k hk => (hkeys k hk).1) hcl]
    rw [List.mem_filterMap]
    constructor
    · rintro ⟨p, hp, hg⟩
      rcases mem_bothPairs.mp hp with ⟨hl, hr, hkeq⟩
      by_cases hd : pairDifferences (common_columns df1 (df2_renamed df2 mappings))
          (join_keys pks (common_columns df1 (df2_renamed df2 mappings))) p.1 p.2 = []
      · rw [if_pos] at hg
        · exact Option.noConfusion hg
        · rw [List.isEmpty_iff]; exact hd
      · rw [if_neg] at hg
        · exact ⟨p.1, p.2, hl, hr, hkeq, hd, (Option.some.inj hg).symm⟩
        · rw [List.isEmpty_iff]; exact hd
    · rintro ⟨l, r, hl, hr, hkeq, hdne, hrec⟩
      refine ⟨(l, r), mem_bothPairs.mpr ⟨hl, hr, hkeq⟩, ?_⟩
      rw [if_neg]
      · rw [hrec]
      · rw [List.isEmpty_iff]; exact hdne
  · intro l r
    unfold pairDifferences
    constructor
    · intro hne2
      rcases List.exists_mem_of_ne_nil _ hne2 with ⟨x, hx⟩
      rcases List.mem_filterMap.mp hx with ⟨c, hc, hfc⟩
      rcases List.mem_filter.mp hc with ⟨hcc, hck⟩
      by_cases hps : pyStr (rowGet l c) ≠ pyStr (rowGet r c)
      · refine ⟨c, hcc, ?_, hps⟩
        intro hmem
        rw [(contains_iff _ _).mpr hmem] at hck
        exact Bool.noConfusion hck
      · rw [if_neg hps] at hfc
        exact Option.noConfusion hfc
    · rintro ⟨c, hcc, hck, hps⟩
      intro hnil
      have hcmem : c ∈ (common_columns df1 (df2_renamed df2 mappings)).filter
          (fun x => !((join_keys pks (common_columns df1 (df2_renamed df2 mappings))).contains x)) := by
        refine List.mem_filter.mpr ⟨hcc, ?_⟩
        cases hb : (join_keys pks (common_columns df1 (df2_renamed df2 mappings))).contains c
        · rfl
        · exact absurd ((contains_iff _ _).mp hb) hck
      have hsome : (if pyStr (rowGet l c) ≠ pyStr (rowGet r c) then
          some (c, rowGet l c, rowGet r c) else none) = some (c, rowGet l c, rowGet r c) :=
        if_pos hps
      have hmem2 : (c, rowGet l c, rowGet r c) ∈ ((common_columns df1 (df2_renamed df2 mappings)).filter
          (fun x => !((join_keys pks (common_columns df1 (df2_renamed df2 mappings))).contains x))).filterMap
          (fun x => if pyStr (rowGet l x) ≠ pyStr (rowGet r x) then
            some (x, rowGet l x, rowGet r x) else none) :=
        List.mem_filterMap.mpr ⟨c, hcmem, hsome⟩
      rw [hnil] at hmem2
      exact List.not_mem_nil _ hmem2

/-- Left frame for the C2 counterexample: 101 rows keyed 0..100, all with
`v = L`. -/
def c2Df1 : DataFrame :=
  { cols := ["id", "v"],
    rows := (List.range 101).map
      (fun n => [("id", Value.int (Int.ofNat n)), ("v", Value.text "L")]) }

/-- Right frame for the C2 counterexample: the same keys, all with `v = R`. -/
def c2Df2 : DataFrame :=
  { cols := ["id", "v"],
    rows := (List.range 101).map
      (fun n => [("id", Value.int (Int.ofNat n)), ("v", Value.text "R")]) }

/-- The mismatch record of the pair keyed 100. -/
def c2rec : MismatchRecord :=
  { key := [("id", Value.int 100)],
    differences := [("v", Value.text "L", Value.text "R")] }

/-- C2: with 101 matched and differing rows, the row keyed 100 is Matched
and differs in the shared non-key column `v`, yet its record does not
appear in the report's `mismatches` list, which holds only the first 100
records; so membership in the report's list is not equivalent to being a
differing Matched row. -/
theorem C2_counterexample :
    ((compare_queries c2Df1 c2Df2 [] ["id"]).toOption.map (fun rep =>
      (rep.summary.mismatches, rep.mismatches.length,
       rep.mismatches.any (fun m => decide (m = c2rec))))) = some (101, 100, false) ∧
    [("id", Value.int 100), ("v", Value.text "L")] ∈ c2Df1.rows ∧
    [("id", Value.int 100), ("v", Value.text "R")] ∈ (df2_renamed c2Df2 []).rows ∧
    keyTuple ["id"] [("id", Value.int 100), ("v", Value.text "R")] =
      keyTuple ["id"] [("id", Value.int 100), ("v", Value.text "L")] ∧
    pyStr (rowGet [("id", Value.int 100), ("v", Value.text "L")] "v") ≠
      pyStr (rowGet [("id", Value.int 100), ("v", Value.text "R")] "v") := by
  set_option maxRecDepth 200000 in
  refine ⟨by decide, by decide, by decide, by decide, by decide⟩

/-- C2 witness at the example scenario: the id=2 record is in the full
mismatch list because its pair is matched and differs on `name`. -/
theorem C2_witness :
    ({ key := [("id", Value.int 2)],
       differences := [("name", Value.text "B", Value.text "C")] } : MismatchRecord) ∈
      mismatchesFull exDf1 exDf2 [] ["id"] :=
  have hok : compare_queries exDf1 exDf2 [] ["id"] =
      Except.ok (buildReport exDf1 exDf2 [] ["id"]) := by rfl
  ((C2_amended hok (by decide)).1 _).mpr
    ⟨[("id", Value.int 2), ("name", Value.text "B")],
     [("id", Value.int 2), ("name", Value.text "C")],
     by decide, by decide, by decide, by decide, by decide⟩

/-- C3: the outer join partitions both inputs completely. The match count
is the sum over left rows of their per-row pairing counts (equivalently
over right rows), the one-sided counts are exactly the unmatched rows of
each side, every merged row is in exactly one category, and every source
row is either one-sided or contributes at least one pairing, never both. -/
theorem C3_partition {df1 df2 : DataFrame} {mappings : List (String × String)}
    {pks : List String} {rep : ComparisonReport}
    (hok : compare_queries df1 df2 mappings pks = Except.ok rep) :
    (rep.summary.«matches» =
      (df1.rows.map (fun l => (matchesRight (df2_renamed df2 mappings)
        (join_keys pks (common_columns df1 (df2_renamed df2 mappings))) l).length)).sum) ∧
    (rep.summary.«matches» =
      ((df2_renamed df2 mappings).rows.map (fun r => (matchesLeft df1
        (join_keys pks (common_columns df1 (df2_renamed df2 mappings))) r).length)).sum) ∧
    (rep.summary.only_in_query1 = (leftOnlySrc df1 (df2_renamed df2 mappings)
      (join_keys pks (common_columns df1 (df2_renamed df2 mappings)))).length) ∧
    (rep.summary.only_in_query2 = (rightOnlySrc df1 (df2_renamed df2 mappings)
      (join_keys pks (common_columns df1 (df2_renamed df2 mappings)))).length) ∧
    (rep.summary.«matches» + rep.summary.only_in_query1 + rep.summary.only_in_query2 =
      (mergedTable df1 (df2_renamed df2 mappings)
        (common_columns df1 (df2_renamed df2 mappings))
        (join_keys pks (common_columns df1 (df2_renamed df2 mappings)))).length) ∧
    (∀ l ∈ df1.rows,
      (l ∈ leftOnlySrc df1 (df2_renamed df2 mappings)
          (join_keys pks (common_columns df1 (df2_renamed df2 mappings))) ∧
        ∀ r, (l, r) ∉ bothPairs df1 (df2_renamed df2 mappings)
          (join_keys pks (common_columns df1 (df2_renamed df2 mappings)))) ∨
      ((∃ r, (l, r) ∈ bothPairs df1 (df2_renamed df2 mappings)
          (join_keys pks (common_columns df1 (df2_renamed df2 mappings)))) ∧
        l ∉ leftOnlySrc df1 (df2_renamed df2 mappings)
          (join_keys pks (common_columns df1 (df2_renamed df2 mappings))))) ∧
    (∀ r ∈ (df2_renamed df2 mappings).rows,
      (r ∈ rightOnlySrc df1 (df2_renamed df2 mappings)
          (join_keys pks (common_columns df1 (df2_renamed df2 mappings))) ∧
        ∀ l, (l, r) ∉ bothPairs df1 (df2_renamed df2 mappings)
          (join_keys pks (common_columns df1 (df2_renamed df2 mappings)))) ∨
      ((∃ l, (l, r) ∈ bothPairs df1 (df2_renamed df2 mappings)
          (join_keys pks (common_columns df1 (df2_renamed df2 mappings)))) ∧
        r ∉ rightOnlySrc df1 (df2_renamed df2 mappings)
          (join_keys pks (common_columns df1 (df2_renamed df2 mappings))))) ∧
    (df1.rows.length = (leftOnlySrc df1 (df2_renamed df2 mappings)
        (join_keys pks (common_columns df1 (df2_renamed df2 mappings)))).length +
      (df1.rows.filter (fun l => !(matchesRight (df2_renamed df2 mappings)
        (join_keys pks (common_columns df1 (df2_renamed df2 mappings))) l).isEmpty)).length) ∧
    ((df2_renamed df2 mappings).rows.length = (rightOnlySrc df1 (df2_renamed df2 mappings)
        (join_keys pks (common_columns df1 (df2_renamed df2 mappings)))).length +
      ((df2_renamed df2 mappings).rows.filter (fun r => !(matchesLeft df1
        (join_keys pks (common_columns df1 (df2_renamed df2 mappings))) r).isEmpty)).length) ∧
    ((df2_renamed df2 mappings).rows.length = df2.rows.length) := by
  obtain ⟨⟨hne, hkeys⟩, ⟨hm1, hm2⟩, hrep⟩ := compare_ok_inv hok
  subst hrep
  have hmatches : (buildReport df1 df2 mappings pks).summary.«matches» =
      (bothPairs df1 (df2_renamed df2 mappings)
        (join_keys pks (common_columns df1 (df2_renamed df2 mappings)))).length := by
    show (filterMerge "both" (mergedTable df1 (df2_renamed df2 mappings)
      (common_columns df1 (df2_renamed df2 mappings))
      (join_keys pks (common_columns df1 (df2_renamed df2 mappings))))).length = _
    rw [filterMerge_both hm1 hm2, List.length_map]
  have honly1 : (buildReport df1 df2 mappings pks).summary.only_in_query1 =
      (leftOnlySrc df1 (df2_renamed df2 mappings)
        (join_keys pks (common_columns df1 (df2_renamed df2 mappings)))).length := by
    show (filterMerge "left_only" (mergedTable df1 (df2_renamed df2 mappings)
      (common_columns df1 (df2_renamed df2 mappings))
      (join_keys pks (common_columns df1 (df2_renamed df2 mappings))))).length = _
    rw [filterMerge_left hm1 hm2, List.length_map]
  have honly2 : (buildReport df1 df2 mappings pks).summary.only_in_query2 =
      (rightOnlySrc df1 (df2_renamed df2 mappings)
        (join_keys pks (common_columns df1 (df2_renamed df2 mappings)))).length := by
    show (filterMerge "right_only" (mergedTable df1 (df2_renamed df2 mappings)
      (common_columns df1 (df2_renamed df2 mappings))
      (join_keys pks (common_columns df1 (df2_renamed df2 mappings))))).length = _
    rw [filterMerge_right hm1 hm2, List.length_map]
  refine ⟨?_, ?_, honly1, honly2, ?_, ?_, ?_, ?_, ?_, ?_⟩
  · rw [hmatches]; exact bothPairs_length_left
  · rw [hmatches]; exact bothPairs_length_right
  · rw [hmatches, honly1, honly2]
    unfold mergedTable
    simp [List.length_append]
    omega
  · intro l hl
    by_cases hm : matchesRight (df2_renamed df2 mappings)
        (join_keys pks (common_columns df1 (df2_renamed df2 mappings))) l = []
    · left
      refine ⟨mem_leftOnlySrc.mpr ⟨hl, hm⟩, ?_⟩
      intro r hmem
      rcases mem_bothPairs.mp hmem with ⟨-, hr, hkeq⟩
      have : r ∈ matchesRight (df2_renamed df2 mappings)
          (join_keys pks (common_columns df1 (df2_renamed df2 mappings))) l :=
        List.mem_filter.mpr ⟨hr, decide_eq_true hkeq⟩
      rw [hm] at this
      exact List.not_mem_nil r this
    · right
      rcases List.exists_mem_of_ne_nil _ hm with ⟨r, hr⟩
      rcases List.mem_filter.mp hr with ⟨hr1, hr2⟩
      refine ⟨⟨r, mem_bothPairs.mpr ⟨hl, hr1, of_decide_eq_true hr2⟩⟩, ?_⟩
      intro hlo
      exact hm (mem_leftOnlySrc.mp hlo).2
  · intro r hr
    by_cases hm : matchesLeft df1
        (join_keys pks (common_columns df1 (df2_renamed df2 mappings))) r = []
    · left
      refine ⟨mem_rightOnlySrc.mpr ⟨hr, hm⟩, ?_⟩
      intro l hmem
      rcases mem_bothPairs.mp hmem with ⟨hl, -, hkeq⟩
      have : l ∈ matchesLeft df1
          (join_keys pks (common_columns df1 (df2_renamed df2 mappings))) r :=
        List.mem_filter.mpr ⟨hl, decide_eq_true hkeq⟩
      rw [hm] at this
      exact List.not_mem_nil l this
    · right
      rcases List.exists_mem_of_ne_nil _ hm with ⟨l, hl⟩
      rcases List.mem_filter.mp hl with ⟨hl1, hl2⟩
      refine ⟨⟨l, mem_bothPairs.mpr ⟨hl1, hr, of_decide_eq_true hl2⟩⟩, ?_⟩
      intro hro
      exact hm (mem_rightOnlySrc.mp hro).2
  · exact List.length_eq_length_filter_add _
  · exact List.length_eq_length_filter_add _
  · exact List.length_map df2.rows _

/-- C3 witness at the example scenario: the match count is the sum of the
per-left-row pairing counts. -/
theorem C3_witness :
    (buildReport exDf1 exDf2 [] ["id"]).summary.«matches» =
      (exDf1.rows.map (fun l => (matchesRight (df2_renamed exDf2 [])
        (join_keys ["id"] (common_columns exDf1 (df2_renamed exDf2 []))) l).length)).sum :=
  have hok : compare_queries exDf1 exDf2 [] ["id"] =
      Except.ok (buildReport exDf1 exDf2 [] ["id"]) := by rfl
  (C3_partition hok).1

/-- Schema facts of one merge record: the indicator field is present with
the category tag, and every common non-key column appears only under its
two suffixed labels, never under its original name. -/
lemma mergeRowShape_record_schema (df1cols df2rcols common keys : List String)
    (a b c : String → Value) (e f : String → Value) (t : String)
    (hm1 : "_merge" ∉ df1cols) (hm2 : "_merge" ∉ df2rcols)
    (hsub1 : ∀ d ∈ common, d ∈ df1cols) (hsub2 : ∀ d ∈ common, d ∈ df2rcols)
    (hcl : ∀ x ∈ df1cols ++ df2rcols, ∀ d ∈ common,
      x ≠ d ++ "_query1" ∧ x ≠ d ++ "_query2") :
    rowGet (mergeRowShape df1cols df2rcols common keys a b c e f t) "_merge" =
      Value.text t ∧
    ("_merge", Value.text t) ∈ mergeRowShape df1cols df2rcols common keys a b c e f t ∧
    ∀ d ∈ common, d ∉ keys →
      ((d ++ "_query1", b d) ∈ mergeRowShape df1cols df2rcols common keys a b c e f t ∧
       (d ++ "_query2", e d) ∈ mergeRowShape df1cols df2rcols common keys a b c e f t ∧
       ∀ p ∈ mergeRowShape df1cols df2rcols common keys a b c e f t, p.1 ≠ d) := by
  refine ⟨mergeRowShape_tag _ _ _ _ _ _ _ _ _ _ hm1 hm2,
    mergeRowShape_mem_tag _ _ _ _ _ _ _ _ _ _, ?_⟩
  intro d hd hdk
  have hdc : common.contains d = true := (contains_iff _ _).mpr hd
  have hdkc : keys.contains d = false := by
    cases hb : keys.contains d
    · rfl
    · exact absurd ((contains_iff _ _).mp hb) hdk
  refine ⟨mergeRowShape_mem_q1 _ _ _ _ _ _ _ _ _ _ d hdc hdkc (hsub1 d hd),
    mergeRowShape_mem_q2 _ _ _ _ _ _ _ _ _ _ d hdc hdkc (hsub2 d hd), ?_⟩
  exact mergeRowShape_no_plain _ _ _ _ _ _ _ _ _ _ d hdc hdkc (hsub1 d hd) hm1
    (fun x hx => (hcl d (List.mem_append.mpr (Or.inl (hsub1 d hd))) x hx).1)
    (fun x hx => (hcl d (List.mem_append.mpr (Or.inl (hsub1 d hd))) x hx).2)

/-- C10: every preview record of the three row categories carries the
`_merge` provenance field with the value of its category, and every common
non-key column appears in the record only under the suffixed labels
`<col>_query1` and `<col>_query2`, never under the original column name, so
the preview schema differs from both input schemas. -/
theorem C10_preview_schema {df1 df2 : DataFrame} {mappings : List (String × String)}
    {pks : List String} {rep : ComparisonReport}
    (hok : compare_queries df1 df2 mappings pks = Except.ok rep)
    (hcl : NoSuffixClash df1 (df2_renamed df2 mappings)) :
    (∀ row ∈ rep.«matches»,
      rowGet row "_merge" = Value.text "both" ∧
      ("_merge", Value.text "both") ∈ row ∧
      ∀ d ∈ common_columns df1 (df2_renamed df2 mappings),
        d ∉ join_keys pks (common_columns df1 (df2_renamed df2 mappings)) →
        (∃ v, (d ++ "_query1", v) ∈ row) ∧ (∃ v, (d ++ "_query2", v) ∈ row) ∧
        ∀ p ∈ row, p.1 ≠ d) ∧
    (∀ row ∈ rep.only_in_query1,
      rowGet row "_merge" = Value.text "left_only" ∧
      ("_merge", Value.text "left_only") ∈ row ∧
      ∀ d ∈ common_columns df1 (df2_renamed df2 mappings),
        d ∉ join_keys pks (common_columns df1 (df2_renamed df2 mappings)) →
        (∃ v, (d ++ "_query1", v) ∈ row) ∧ (∃ v, (d ++ "_query2", v) ∈ row) ∧
        ∀ p ∈ row, p.1 ≠ d) ∧
    (∀ row ∈ rep.only_in_query2,
      rowGet row "_merge" = Value.text "right_only" ∧
      ("_merge", Value.text "right_only") ∈ row ∧
      ∀ d ∈ common_columns df1 (df2_renamed df2 mappings),
        d ∉ join_keys pks (common_columns df1 (df2_renamed df2 mappings)) →
        (∃ v, (d ++ "_query1", v) ∈ row) ∧ (∃ v, (d ++ "_query2", v) ∈ row) ∧
        ∀ p ∈ row, p.1 ≠ d) := by
  obtain ⟨⟨hne, hkeys⟩, ⟨hm1, hm2⟩, hrep⟩ := compare_ok_inv hok
  subst hrep
  refine ⟨?_, ?_, ?_⟩
  · intro row hrow
    have hrow2 : row ∈ filterMerge "both" (mergedTable df1 (df2_renamed df2 mappings)
        (common_columns df1 (df2_renamed df2 mappings))
        (join_keys pks (common_columns df1 (df2_renamed df2 mappings)))) :=
      List.mem_of_mem_take hrow
    rw [filterMerge_both hm1 hm2] at hrow2
    rcases List.mem_map.mp hrow2 with ⟨p, hp, hpr⟩
    subst hpr
    rw [mergedBoth_shape]
    have h := mergeRowShape_record_schema df1.cols (df2_renamed df2 mappings).cols
      (common_columns df1 (df2_renamed df2 mappings))
      (join_keys pks (common_columns df1 (df2_renamed df2 mappings)))
      (fun x => rowGet p.1 x) (fun x => rowGet p.1 x) (fun x => rowGet p.1 x)
      (fun x => rowGet p.2 x) (fun x => rowGet p.2 x) "both"
      hm1 hm2 (fun d hd => common_sub1 hd) (fun d hd => common_sub2 hd) hcl
    exact ⟨h.1, h.2.1, fun d hd hdk =>
      ⟨⟨rowGet p.1 d, (h.2.2 d hd hdk).1⟩, ⟨rowGet p.2 d, (h.2.2 d hd hdk).2.1⟩,
        (h.2.2 d hd hdk).2.2⟩⟩
  · intro row hrow
    have hrow2 : row ∈ filterMerge "left_only" (mergedTable df1 (df2_renamed df2 mappings)
        (common_columns df1 (df2_renamed df2 mappings))
        (join_keys pks (common_columns df1 (df2_renamed df2 mappings)))) :=
      List.mem_of_mem_take hrow
    rw [filterMerge_left hm1 hm2] at hrow2
    rcases List.mem_map.mp hrow2 with ⟨l, hl, hpr⟩
    subst hpr
    rw [mergedLeft_shape]
    have h := mergeRowShape_record_schema df1.cols (df2_renamed df2 mappings).cols
      (common_columns df1 (df2_renamed df2 mappings))
      (join_keys pks (common_columns df1 (df2_renamed df2 mappings)))
      (fun x => rowGet l x) (fun x => rowGet l x) (fun x => rowGet l x)
      (fun _ => Value.null) (fun _ => Value.null) "left_only"
      hm1 hm2 (fun d hd => common_sub1 hd) (fun d hd => common_sub2 hd) hcl
    exact ⟨h.1, h.2.1, fun d hd hdk =>
      ⟨⟨rowGet l d, (h.2.2 d hd hdk).1⟩, ⟨Value.null, (h.2.2 d hd hdk).2.1⟩,
        (h.2.2 d hd hdk).2.2⟩⟩
  · intro row hrow
    have hrow2 : row ∈ filterMerge "right_only" (mergedTable df1 (df2_renamed df2 mappings)
        (common_columns df1 (df2_renamed df2 mappings))
        (join_keys pks (common_columns df1 (df2_renamed df2 mappings)))) :=
      List.mem_of_mem_take hrow
    rw [filterMerge_right hm1 hm2] at hrow2
    rcases List.mem_map.mp hrow2 with ⟨r, hr, hpr⟩
    subst hpr
    rw [mergedRight_shape]
    have h := mergeRowShape_record_schema df1.cols (df2_renamed df2 mappings).cols
      (common_columns df1 (df2_renamed df2 mappings))
      (join_keys pks (common_columns df1 (df2_renamed df2 mappings)))
      (fun x => rowGet r x) (fun _ => Value.null) (fun _ => Value.null)
      (fun x => rowGet r x) (fun x => rowGet r x) "right_only"
      hm1 hm2 (fun d hd => common_sub1 hd) (fun d hd => common_sub2 hd) hcl
    exact ⟨h.1, h.2.1, fun d hd hdk =>
      ⟨⟨Value.null, (h.2.2 d hd hdk).1⟩, ⟨rowGet r d, (h.2.2 d hd hdk).2.1⟩,
        (h.2.2 d hd hdk).2.2⟩⟩

/-- C10 witness: the right-only preview record of the example scenario
carries the `_merge` tag. -/
theorem C10_witness :
    rowGet [("id", Value.int 3), ("name_query1", Value.null),
      ("name_query2", Value.text "D"), ("_merge", Value.text "right_only")] "_merge" =
      Value.text "right_only" :=
  have hok : compare_queries exDf1 exDf2 [] ["id"] =
      Except.ok (buildReport exDf1 exDf2 [] ["id"]) := by rfl
  (((C10_preview_schema hok (by decide)).2.2)
    [("id", Value.int 3), ("name_query1", Value.null),
      ("name_query2", Value.text "D"), ("_merge", Value.text "right_only")]
    (by decide)).1
